import Mathlib

/-! Verification development for the Redxt browser-automation orchestrator.
    The definitions below are shallow embeddings of the TypeScript sources
    (the session durable objects, the error-handling module, the extractor
    agents, the security guardrails); the theorems settle the specification
    claims against them.  External effects (LLM calls, storage, wall-clock
    time) are passed in as explicit parameters. -/

namespace Redxt

/-- JSON-like values as produced by JSON.parse (objects as ordered field lists). -/
inductive Json where
  | null : Json
  | bool (b : Bool) : Json
  | num (n : Int) : Json
  | str (s : String) : Json
  | arr (items : List Json) : Json
  | obj (fields : List (String × Json)) : Json

/-- Property lookup on a parsed JSON object (`parsed[field]`): the value of the
first field with the given name, or `none` when the key is absent. -/
def lookupField (fields : List (String × Json)) (name : String) : Option Json :=
  match fields with
  | [] => none
  | (k, v) :: rest => if k = name then some v else lookupField rest name

/-! ## Error handling module (`categorizeError`, `calculateBackoff`) -/

/-- The six error categories of the error-handling module. -/
inductive ErrorCategory where
  | recoverable
  | user_input_required
  | fatal
  | timeout
  | rate_limit
  | network
deriving DecidableEq

/-- The first list is a prefix of the second (character lists). -/
def startsWithChars : List Char → List Char → Bool
  | [], _ => true
  | _ :: _, [] => false
  | p :: ps, c :: cs => p = c && startsWithChars ps cs

/-- The first list occurs as a contiguous sublist of the second. -/
def hasSubstring : List Char → List Char → Bool
  | pat, [] => pat.isEmpty
  | pat, s@(_ :: rest) => startsWithChars pat s || hasSubstring pat rest

/-- Substring containment, the embedding of JavaScript `String.includes`. -/
def strContains (s pat : String) : Bool :=
  hasSubstring pat.toList s.toList

/-- Character-wise lowercasing, the embedding of JavaScript `toLowerCase`. -/
def lowerStr (s : String) : String :=
  String.mk (s.toList.map Char.toLower)

/-- Shallow embedding of `categorizeError(error, context)`: the error message is
lowercased and the category branches are tested in source order (rate limit,
network, timeout, user input, fatal, default recoverable).  `criticalContext`
models `context?.critical`. -/
def categorizeError (message : String) (criticalContext : Bool) : ErrorCategory :=
  let m := lowerStr message
  if strContains m "rate limit" || strContains m "429" then .rate_limit
  else if strContains m "network" || strContains m "timeout" ||
      strContains m "econnrefused" || strContains m "fetch failed" then .network
  else if strContains m "timeout" || strContains m "timed out" then .timeout
  else if strContains m "captcha" || strContains m "verification" ||
      strContains m "login required" || strContains m "authentication" then .user_input_required
  else if strContains m "forbidden" || strContains m "unauthorized" ||
      strContains m "invalid session" ||
      (strContains m "not found" && criticalContext) then .fatal
  else .recoverable

/-- Retry strategy record (numeric fields as rationals, mirroring JS numbers). -/
structure RetryStrategy where
  maxRetries : Nat
  backoffMs : ℚ
  backoffMultiplier : ℚ
  maxBackoffMs : ℚ
  retryableCategories : List ErrorCategory

/-- The module-level DEFAULT_RETRY_STRATEGY constant. -/
def DEFAULT_RETRY_STRATEGY : RetryStrategy :=
  { maxRetries := 3
    backoffMs := 1000
    backoffMultiplier := 2
    maxBackoffMs := 30000
    retryableCategories := [.recoverable, .network, .timeout, .rate_limit] }

/-- Shallow embedding of `calculateBackoff(attempt, strategy)`:
`min(backoffMs * backoffMultiplier ^ (attempt - 1), maxBackoffMs)`. -/
def calculateBackoff (attempt : Nat) (strategy : RetryStrategy) : ℚ :=
  min (strategy.backoffMs * strategy.backoffMultiplier ^ (attempt - 1)) strategy.maxBackoffMs

/-- Modelled from the spec: backoff for attempt k (1-indexed) is
`min(backoffMs * backoffMultiplier ^ (k-1), maxBackoffMs)`. -/
def specBackoff (k : Nat) (strategy : RetryStrategy) : ℚ :=
  min (strategy.backoffMs * strategy.backoffMultiplier ^ (k - 1)) strategy.maxBackoffMs

/-- A retry strategy whose base backoff exceeds its cap, exercising the
claimed lower bound `backoff(k) >= backoffMs`. -/
def cappedStrategy : RetryStrategy :=
  { maxRetries := 3
    backoffMs := 1000
    backoffMultiplier := 2
    maxBackoffMs := 500
    retryableCategories := [.recoverable] }

/-! ## Extractor agents -/

/-- Shallow embedding of `ExtractorAgent.parseExtractorOutput(content, fields)`
after the JSON step: `parsed = some objFields` models a successful JSON parse of
the LLM reply, `parsed = none` the catch branch on a parse failure.  Every
requested field is emitted; a field absent from the reply maps to null. -/
def parseExtractorOutput (parsed : Option (List (String × Json)))
    (fields : List String) : List (String × Json) :=
  match parsed with
  | some objFields => fields.map (fun f => (f, (lookupField objFields f).getD Json.null))
  | none => fields.map (fun f => (f, Json.null))

/-- Result record of `EnhancedCoordinator.runExtractor`. -/
structure ExtractorResult where
  extractedData : List (String × Json)
  confidence : ℚ

/-- Shallow embedding of the parsing tail of `EnhancedCoordinator.runExtractor`:
the fenced-code-block-stripped reply is JSON.parsed (`some objFields` on
success, `none` for the catch branch) and the parsed object is returned as
`extractedData` unchanged, with confidence 0.9. -/
def enhancedRunExtractor (reply : Option (List (String × Json))) :
    Except String ExtractorResult :=
  match reply with
  | some objFields => .ok { extractedData := objFields, confidence := 9/10 }
  | none => .error "Extraction failed"

/-! ## Event bus -/

/-- Event record published on the per-session bus. -/
structure EventData where
  type : String
  actor : String
  state : String
  timestamp : Nat

/-- Shallow embedding of `SessionDurableObject.emitEvent`: the loop over the
listener set runs each callback inside its own try/catch; a thrown exception
(`Except.error`) is logged and swallowed and the loop continues.  The result
counts the listeners that were invoked, and is an `Except.error` only if an
exception escapes the loop. -/
def emitEvent (listeners : List (EventData → Except String Unit))
    (event : EventData) : Except String Nat :=
  match listeners with
  | [] => .ok 0
  | l :: rest =>
    match l event with
    | .ok _ => (emitEvent rest event).map (· + 1)
    | .error _ => (emitEvent rest event).map (· + 1)

/-! ## Enhanced session durable object (`src/src/durable-objects/session.ts`)

The handlers are embedded as pure state transformers.  External effects are
parameters: `now` stands for `Date.now()`, the planner output and the content
cache lookup/stats feed `planNextStep`, and storage writes are the identity on
the modelled state.  The detached `planNextStep().catch(...)` spawned by
`handleExecute`, `handleActionResult` and `handleResume` is not run inside the
spawning handler; a trace applies `planNextStep` as a separate step, matching
the cooperative scheduling of the durable object. -/

namespace Enhanced

/-- Execution states of the enhanced session FSM. -/
inductive ExecState where
  | idle
  | planning
  | executing
  | waitingForBrowser
  | paused
  | completed
  | error
deriving DecidableEq

/-- Task statuses. -/
inductive TaskStatus where
  | pending
  | running
  | paused
  | completed
  | failed
  | cancelled
deriving DecidableEq

/-- Task record. -/
structure Task where
  id : String
  description : String
  status : TaskStatus
  priority : Nat
  createdAt : Nat
  startedAt : Option Nat := none
  completedAt : Option Nat := none
  result : Option String := none
  error : Option String := none

/-- Browser action: a type tag with a parameter bag and optional reasoning. -/
structure BrowserAction where
  type : String
  params : List (String × Redxt.Json)
  reasoning : Option String := none

/-- The placeholder action `\x7b type: 'unknown', params: \x7b\x7d \x7d` used by
`handleActionResult` when the queue is empty. -/
def unknownAction : BrowserAction := { type := "unknown", params := [] }

/-- Result part of an action record (`ToolExecutionResult` shape). -/
structure ToolExecutionResult where
  success : Bool
  data : Option Redxt.Json := none
  error : Option String := none
  executionTime : Nat := 0
  browserStateChanged : Bool := true
  screenshot : Option String := none

/-- One entry of the action history. -/
structure ActionRecord where
  action : BrowserAction
  result : ToolExecutionResult
  timestamp : Nat
  duration : Nat
  step : Nat

/-- Browser state snapshot. -/
structure BrowserState where
  url : String
  title : String
  dom : String
  screenshot : Option String := none
  viewportWidth : Nat := 0
  viewportHeight : Nat := 0
  canGoBack : Bool := false
  canGoForward : Bool := false
  timestamp : Nat

/-- Cache statistics record. -/
structure CacheStats where
  hits : Nat
  misses : Nat
  evictions : Nat
  totalSize : Nat
  hitRate : ℚ

/-- Session metrics accumulator. -/
structure SessionMetrics where
  totalSteps : Nat
  successfulActions : Nat
  failedActions : Nat
  retriedActions : Nat
  totalExecutionTime : Nat
  llmCalls : Nat
  llmTokensUsed : Nat
  securityThreatsDetected : Nat
  cacheHitRate : ℚ

/-- Session configuration (note: no `maxFailures` field exists in this
variant's `SessionConfig`). -/
structure SessionConfig where
  maxSteps : Nat
  enableVision : Bool
  enableReplay : Bool
  enableAnalytics : Bool
  strictSecurity : Bool
  retryStrategy : Redxt.RetryStrategy
  toolsEnabled : List String

/-- Strategic plan produced by the planner. -/
structure StrategicPlan where
  strategy : String
  estimatedSteps : Nat
  confidence : ℚ
  plannedActions : List (BrowserAction × String × Nat)
  successCriteria : List String
  createdAt : Nat

/-- Planner input record (as captured into the planner history). -/
structure PlannerInput where
  taskDescription : String
  currentState : BrowserState
  actionHistory : List ActionRecord
  currentPlan : Option StrategicPlan
  stepCount : Nat
  maxSteps : Nat

/-- Planner output (`parsePlannerResponse` result). -/
structure PlannerOutput where
  plan : Option StrategicPlan
  nextAction : BrowserAction
  reasoning : String
  confidence : ℚ
  needsRevision : Bool
  taskComplete : Bool
  result : Option String

/-- One entry of the planner history. -/
structure PlannerRecord where
  input : PlannerInput
  output : PlannerOutput
  timestamp : Nat
  duration : Nat

/-- The session state persisted by the enhanced durable object.  The tasks,
history and counters are modelled exactly; `currentTaskIndex` is an `Int`
because it is initialised to `-1`. -/
structure SessionState where
  sessionId : String
  tasks : List Task
  currentTaskIndex : Int
  stepCount : Nat
  executionState : ExecState
  actionHistory : List ActionRecord
  plannerHistory : List PlannerRecord
  currentPlan : Option StrategicPlan := none
  browserState : BrowserState
  cacheStats : CacheStats
  config : SessionConfig
  metrics : SessionMetrics
  createdAt : Nat
  updatedAt : Nat

/-- The durable object: the persisted session state plus the in-memory
action queue field. -/
structure SessionDO where
  sessionState : SessionState
  actionQueue : List BrowserAction

/-- The task at `tasks[currentTaskIndex]`, or `none` when the index is out of
range (JS indexing with a negative or too-large index yields `undefined`). -/
def currentTask (s : SessionState) : Option Task :=
  match s.currentTaskIndex with
  | .ofNat i => s.tasks.get? i
  | .negSucc _ => none

/-- Replace the task at `currentTaskIndex` by `f` applied to it, when the
index is in range; otherwise leave the task list unchanged. -/
def mapCurrentTask (s : SessionState) (f : Task → Task) : SessionState :=
  match s.currentTaskIndex with
  | .ofNat i =>
    match s.tasks.get? i with
    | some t => { s with tasks := s.tasks.set i (f t) }
    | none => s
  | .negSucc _ => s

/-- Response of the `next-action` route. -/
inductive NextActionResponse where
  | waiting (taskComplete : Bool)
  | delivered (action : BrowserAction)

/-- Shallow embedding of `handleNextAction`: shift the queue; with no action
reply `waiting` (taskComplete iff the state is completed), otherwise reply
with the action.  The execution state is not written. -/
def handleNextAction (o : SessionDO) : SessionDO × NextActionResponse :=
  match o.actionQueue with
  | [] => (o, .waiting (o.sessionState.executionState = .completed))
  | a :: rest => ({ o with actionQueue := rest }, .delivered a)

/-- Body of an `action-result` request. -/
structure ActionResultBody where
  success : Bool
  result : Option Redxt.Json := none
  error : Option String := none
  screenshot : Option String := none

/-- Shallow embedding of `handleActionResult`: build an `ActionRecord` whose
action is `actionQueue[0]` (or the unknown placeholder when the queue is
empty), append it to the history, bump the success/failure metric, and when
the state is `waiting_for_browser` switch it to `executing` (the detached
`planNextStep` call is a separate trace step). -/
def handleActionResult (body : ActionResultBody) (now : Nat) (o : SessionDO) : SessionDO :=
  let record : ActionRecord :=
    { action := o.actionQueue.head?.getD unknownAction
      result :=
        { success := body.success
          data := body.result
          error := body.error
          executionTime := 0
          browserStateChanged := true
          screenshot := body.screenshot }
      timestamp := now
      duration := 0
      step := o.sessionState.stepCount }
  let st := o.sessionState
  let st := { st with
    actionHistory := st.actionHistory ++ [record]
    metrics :=
      if body.success then
        { st.metrics with successfulActions := st.metrics.successfulActions + 1 }
      else
        { st.metrics with failedActions := st.metrics.failedActions + 1 } }
  let st :=
    if st.executionState = .waitingForBrowser then
      { st with executionState := .executing }
    else st
  { o with sessionState := st }

/-- Shallow embedding of `handleFollowUp`: append a new task with status
`pending` and priority `tasks.length + 1`; `currentTaskIndex` is not written. -/
def handleFollowUp (description : String) (taskId : String) (now : Nat)
    (o : SessionDO) : SessionDO :=
  let task : Task :=
    { id := taskId
      description := description
      status := .pending
      priority := o.sessionState.tasks.length + 1
      createdAt := now }
  { o with sessionState := { o.sessionState with tasks := o.sessionState.tasks ++ [task] } }

/-- Shallow embedding of `handlePause`: unconditionally set the execution
state to `paused`, mark the current task `paused`, touch `updatedAt`. -/
def handlePause (now : Nat) (o : SessionDO) : SessionDO :=
  let st := { o.sessionState with executionState := ExecState.paused }
  let st := mapCurrentTask st (fun t => { t with status := .paused })
  { o with sessionState := { st with updatedAt := now } }

/-- Shallow embedding of `handleCancel`: unconditionally set the execution
state to `completed`, mark the current task `cancelled` with `completedAt`,
touch `updatedAt`, and drain the action queue. -/
def handleCancel (now : Nat) (o : SessionDO) : SessionDO :=
  let st := { o.sessionState with executionState := ExecState.completed }
  let st := mapCurrentTask st
    (fun t => { t with status := .cancelled, completedAt := some now })
  { sessionState := { st with updatedAt := now }, actionQueue := [] }

/-- Shallow embedding of `planNextStep`, with the coordinator call abstracted:
`po` is the planner output the awaited `runPlanner` returned, `cachedDOM` the
content-cache lookup for the current URL, `stats` the `getStats()` snapshot.
Guards, the step cap, the metric/caching updates, the planner record, plan
installation, and the task-completion versus enqueue branch follow the source
order. -/
def planNextStep (po : PlannerOutput) (cachedDOM : Option String)
    (stats : CacheStats) (now : Nat) (o : SessionDO) : SessionDO :=
  match currentTask o.sessionState with
  | none => o
  | some tk =>
    if o.sessionState.executionState = .paused ∨
        o.sessionState.executionState = .completed then o
    else if o.sessionState.config.maxSteps ≤ o.sessionState.stepCount then
      let st := mapCurrentTask o.sessionState
        (fun t => { t with status := .failed, error := some "Maximum steps reached" })
      { o with sessionState := { st with executionState := ExecState.error } }
    else
      let st := o.sessionState
      let st := { st with
        stepCount := st.stepCount + 1
        metrics := { st.metrics with totalSteps := st.metrics.totalSteps + 1 } }
      let st :=
        match cachedDOM with
        | some dom =>
          { st with
            browserState := { st.browserState with dom := dom }
            cacheStats := { st.cacheStats with hits := st.cacheStats.hits + 1 } }
        | none =>
          { st with cacheStats := { st.cacheStats with misses := st.cacheStats.misses + 1 } }
      let st := { st with
        cacheStats := stats
        metrics := { st.metrics with cacheHitRate := stats.hitRate }
        executionState := ExecState.planning }
      let plannerRecord : PlannerRecord :=
        { input :=
            { taskDescription := tk.description
              currentState := st.browserState
              actionHistory := st.actionHistory
              currentPlan := st.currentPlan
              stepCount := st.stepCount
              maxSteps := st.config.maxSteps }
          output := po
          timestamp := now
          duration := 0 }
      let st := { st with plannerHistory := st.plannerHistory ++ [plannerRecord] }
      let st :=
        match po.plan with
        | some p => { st with currentPlan := some p }
        | none => st
      if po.taskComplete then
        let st := mapCurrentTask st
          (fun t => { t with status := .completed, completedAt := some now, result := po.result })
        { o with sessionState := { st with executionState := ExecState.completed } }
      else
        { sessionState := { st with executionState := ExecState.waitingForBrowser }
          actionQueue := o.actionQueue ++ [po.nextAction] }

end Enhanced

/-! ## Multi-agent session durable object (`src/session.ts`)

This is the sibling variant of the session durable object.  Its execution
state enum has `waiting_for_result` and `failed` (and no `error`) and its
session state carries `currentAction` and `consecutiveFailures`; its config
carries `maxFailures`. -/

namespace MultiAgent

/-- Execution states of the multi-agent session FSM. -/
inductive ExecState where
  | idle
  | planning
  | executing
  | waitingForResult
  | paused
  | completed
  | failed
deriving DecidableEq

/-- Task record of the multi-agent variant. -/
structure Task where
  id : String
  description : String
  startUrl : Option String := none
  status : Enhanced.TaskStatus
  createdAt : Nat
  updatedAt : Nat
  completedAt : Option Nat := none

/-- Browser action of the multi-agent variant: the discriminated union is
modelled by its type tag plus an identifier. -/
structure Action where
  type : String
  id : String

/-- Action result posted by the browser client. -/
structure ActionResult where
  actionId : String
  success : Bool
  result : Option Redxt.Json := none
  error : Option String := none
  screenshot : Option String := none
  domState : Option Enhanced.BrowserState := none
  timestamp : Nat

/-- Execution configuration of the multi-agent variant. -/
structure ExecutionConfig where
  maxSteps : Nat
  maxFailures : Nat
  planningInterval : Nat
  useVision : Bool
  enableReplay : Bool
  maxActionsPerStep : Nat

/-- The module-level DEFAULT_CONFIG constant of `src/session.ts`. -/
def DEFAULT_CONFIG : ExecutionConfig :=
  { maxSteps := 50
    maxFailures := 3
    planningInterval := 3
    useVision := true
    enableReplay := true
    maxActionsPerStep := 3 }

/-- Session state persisted by the multi-agent durable object (the fields the
modelled handlers read and write). -/
structure SessionState where
  sessionId : String
  tasks : List Task
  currentTaskIndex : Int
  currentAction : Option Action
  executionState : ExecState
  browserState : Option Enhanced.BrowserState
  actionHistory : List (Action × ActionResult)
  createdAt : Nat
  updatedAt : Nat
  stepCount : Nat
  consecutiveFailures : Nat
  config : ExecutionConfig

/-- The task at `tasks[currentTaskIndex]`, or `none` when out of range. -/
def currentTask (s : SessionState) : Option Task :=
  match s.currentTaskIndex with
  | .ofNat i => s.tasks.get? i
  | .negSucc _ => none

/-- Replace the task at `currentTaskIndex` by `f` applied to it, when the
index is in range. -/
def mapCurrentTask (s : SessionState) (f : Task → Task) : SessionState :=
  match s.currentTaskIndex with
  | .ofNat i =>
    match s.tasks.get? i with
    | some t => { s with tasks := s.tasks.set i (f t) }
    | none => s
  | .negSucc _ => s

/-- Shallow embedding of `handleActionResult` of `src/session.ts`: when a
`currentAction` is pending, append `(currentAction, body)` to the history,
adopt `body.domState` when present, reset `consecutiveFailures` to 0 on
success or increment it on failure, and when the incremented counter reaches
`maxFailures` set the execution state to `failed` and fail the current task;
then clear `currentAction`, touch `updatedAt`, and if still
`waiting_for_result` resume planning.  Without a pending `currentAction`
the whole block is skipped. -/
def handleActionResult (body : ActionResult) (now : Nat) (s : SessionState) : SessionState :=
  match s.currentAction with
  | none => s
  | some act =>
    let s1 := { s with actionHistory := s.actionHistory ++ [(act, body)] }
    let s2 :=
      match body.domState with
      | some bs => { s1 with browserState := some bs }
      | none => s1
    let s3 :=
      if body.success then
        { s2 with consecutiveFailures := 0 }
      else
        let sInc := { s2 with consecutiveFailures := s2.consecutiveFailures + 1 }
        if sInc.config.maxFailures ≤ sInc.consecutiveFailures then
          let sFail := { sInc with executionState := ExecState.failed }
          mapCurrentTask sFail
            (fun t => { t with status := .failed, completedAt := some now })
        else sInc
    let s4 : SessionState := { s3 with currentAction := none, updatedAt := now }
    if s4.executionState = .waitingForResult then
      { s4 with executionState := ExecState.planning }
    else s4

end MultiAgent

/-! ## Security guardrails (`SECURITY_PATTERNS`, `sanitizeContent`)

The guardrail module is driven by JavaScript regular expressions.  They are
embedded through a small backtracking matcher over an abstract syntax of the
constructs the patterns use (character classes, concatenation, alternation,
greedy repetition, word boundaries).  Matching enumerates outcomes in the
preference order of a JavaScript engine (alternation tries the left branch
first, greedy repetition tries longer first), and global replacement scans
the original string left to right over non-overlapping matches, exactly as
`String.replace` with a `/g` regex. -/

namespace Guardrails

/-- Regular-expression abstract syntax: empty word, single character from a
class, concatenation, alternation, greedy Kleene star, and the `\b`
word-boundary assertion. -/
inductive RE where
  | eps : RE
  | cls : (Char → Bool) → RE
  | seq : RE → RE → RE
  | alt : RE → RE → RE
  | star : RE → RE
  | wordB : RE

/-- JavaScript `\w`: ASCII letters, digits and underscore. -/
def isWordChar (c : Char) : Bool :=
  (Char.ofNat 97 ≤ c && c ≤ Char.ofNat 122) ||
  (Char.ofNat 65 ≤ c && c ≤ Char.ofNat 90) ||
  (Char.ofNat 48 ≤ c && c ≤ Char.ofNat 57) || c = Char.ofNat 95

/-- JavaScript `\s` restricted to the ASCII whitespace characters that occur
in the analysed strings (space, tab, newline, carriage return, vertical tab,
form feed). -/
def isSpaceChar (c : Char) : Bool :=
  c = ' ' || c = Char.ofNat 9 || c = Char.ofNat 10 ||
  c = Char.ofNat 13 || c = Char.ofNat 11 || c = Char.ofNat 12

/-- All ways `re` can match a prefix of `s`, as pairs of the character that
ends the consumed prefix (`prev` when nothing was consumed) and the
unconsumed suffix, listed in JavaScript backtracking preference order.
`prev` is the character immediately before the current position (for `\b`).
`fuel` bounds recursion depth; callers pass enough for the strings involved.
A star iteration must consume at least one character, as in JavaScript, so
repetition of a nullable expression cannot loop. -/
def reMatch : Nat → RE → Option Char → List Char → List (Option Char × List Char)
  | 0, _, _, _ => []
  | _ + 1, .eps, prev, s => [(prev, s)]
  | _ + 1, .wordB, prev, s =>
    if (match prev with | some c => isWordChar c | none => false) ≠
        (match s.head? with | some c => isWordChar c | none => false) then
      [(prev, s)]
    else []
  | _ + 1, .cls p, _, s =>
    match s with
    | [] => []
    | c :: rest => if p c then [(some c, rest)] else []
  | fuel + 1, .seq a b, prev, s =>
    (reMatch fuel a prev s).flatMap (fun pr => reMatch fuel b pr.1 pr.2)
  | fuel + 1, .alt a b, prev, s => reMatch fuel a prev s ++ reMatch fuel b prev s
  | fuel + 1, .star r, prev, s =>
    ((reMatch fuel r prev s).filter (fun pr => pr.2.length < s.length)).flatMap
      (fun pr => reMatch fuel (.star r) pr.1 pr.2) ++ [(prev, s)]

/-- Length of the preferred match of `re` at the current position, or `none`:
the first entry of the backtracking enumeration, as a JavaScript engine
returns it. -/
def matchAt (fuel : Nat) (re : RE) (prev : Option Char) (s : List Char) : Option Nat :=
  match reMatch fuel re prev s with
  | [] => none
  | pr :: _ => some (s.length - pr.2.length)

/-- Matcher fuel for a suffix of length `n`: generous headroom over the
maximal recursion depth (pattern nesting plus consumed characters). -/
def matcherFuel (n : Nat) : Nat := 2 * n + 400

/-- Preferred match length at the current position with adequate fuel. -/
def jsMatchAt (re : RE) (prev : Option Char) (s : List Char) : Option Nat :=
  matchAt (matcherFuel s.length) re prev s

/-- The word-boundary context after consuming a chunk: its last character,
or the previous context when nothing was consumed. -/
def lastCtx (prev : Option Char) (chunk : List Char) : Option Char :=
  match chunk.getLast? with
  | some c => some c
  | none => prev

/-- One global-replace pass (JavaScript `String.replace` with a `/g` regex):
scan the original string left to right; at a match of positive length emit
the replacement and resume after the match; at an empty match emit the
replacement and advance one character (lastIndex steps past empty matches);
otherwise copy one character.  Matches are found against the original
string only; replacement text is never rescanned. -/
def replaceScan (re : RE) (repl : List Char) : Nat → Option Char → List Char → List Char
  | 0, _, _ => []
  | _ + 1, prev, [] =>
    match jsMatchAt re prev [] with
    | some _ => repl
    | none => []
  | fuel + 1, prev, s =>
    match s with
    | [] => []
    | c :: rest =>
      match jsMatchAt re prev s with
      | none => c :: replaceScan re repl fuel (some c) rest
      | some 0 => repl ++ c :: replaceScan re repl fuel (some c) rest
      | some (n + 1) =>
        repl ++ replaceScan re repl fuel (lastCtx prev (s.take (n + 1))) (s.drop (n + 1))

/-- Global replacement over a whole string. -/
def replaceGlobal (re : RE) (repl : List Char) (s : List Char) : List Char :=
  replaceScan re repl (s.length + 1) none s

/-- Whether `re` matches somewhere in the suffix, threading the boundary
context. -/
def hasMatchFrom (re : RE) : Nat → Option Char → List Char → Bool
  | 0, _, _ => false
  | _ + 1, prev, [] => (jsMatchAt re prev []).isSome
  | fuel + 1, prev, s =>
    match s with
    | [] => false
    | c :: rest => (jsMatchAt re prev s).isSome || hasMatchFrom re fuel (some c) rest

/-- Embedding of `regex.test(s)` / a non-null `s.match(regex)`: the regex
matches somewhere in `s`. -/
def hasMatch (re : RE) (s : List Char) : Bool :=
  hasMatchFrom re (s.length + 1) none s

/-- Single case-sensitive character. -/
def chr (c : Char) : RE := .cls (fun x => x = c)

/-- Single case-insensitive character (patterns are written lowercase). -/
def chrCI (c : Char) : RE := .cls (fun x => x.toLower = c)

/-- Case-insensitive literal word. -/
def strCI (s : String) : RE := (s.toList.map chrCI).foldr RE.seq RE.eps

/-- JavaScript `\d`. -/
def digit : RE := .cls (fun c => Char.ofNat 48 ≤ c && c ≤ Char.ofNat 57)

/-- JavaScript `\s` (see `isSpaceChar`). -/
def wsp : RE := .cls isSpaceChar

/-- JavaScript `\S`. -/
def nonWsp : RE := .cls (fun c => !isSpaceChar c)

/-- Greedy `?`: prefer the match over the empty alternative. -/
def opt (r : RE) : RE := .alt r .eps

/-- Greedy `+`. -/
def plus (r : RE) : RE := .seq r (.star r)

/-- Exactly `n` copies. -/
def repExact : Nat → RE → RE
  | 0, _ => .eps
  | n + 1, r => .seq r (repExact n r)

/-- Greedy `\x7bn,\x7d`: at least `n` copies. -/
def repAtLeast (n : Nat) (r : RE) : RE := .seq (repExact n r) (.star r)

/-- Alternation of a list, first alternative preferred. -/
def alts : List RE → RE
  | [] => .eps
  | [r] => r
  | r :: rest => .alt r (alts rest)

/-- ASCII letter, case-insensitively folded to lower case. -/
def isAsciiLetterCI (c : Char) : Bool :=
  Char.ofNat 97 ≤ c.toLower && c.toLower ≤ Char.ofNat 122

/-- Threat categories of the guardrail filter. -/
inductive ThreatType where
  | task_override
  | prompt_injection
  | sensitive_data
  | dangerous_action
  | system_reference
  | credential_leak
deriving DecidableEq

/-- Pattern severities. -/
inductive Severity where
  | low
  | medium
  | high
  | critical
deriving DecidableEq

/-- The numeric severity order used by `sanitizeContent`. -/
def severityOrder : Severity → Nat
  | .low => 0
  | .medium => 1
  | .high => 2
  | .critical => 3

/-- One security pattern entry (regex, threat tag, replacement marker,
severity). -/
structure SecPattern where
  pattern : RE
  ptype : ThreatType
  replacement : Option (List Char)
  severity : Severity

/-- Common group `(previous|prior|earlier|above)`. -/
def rePrevGroup : RE :=
  alts [strCI "previous", strCI "prior", strCI "earlier", strCI "above"]

/-- Common optional group `(all\s+)?`. -/
def reAllOpt : RE := opt (.seq (strCI "all") (plus wsp))

/-- Pattern `\bignore\s+(all\s+)?(previous|prior|earlier|above)\s+(instructions?|tasks?|commands?|prompts?)` with the i flag. -/
def reIgnoreInstructions : RE :=
  .seq .wordB (.seq (strCI "ignore") (.seq (plus wsp) (.seq reAllOpt
    (.seq rePrevGroup (.seq (plus wsp)
      (alts [ .seq (strCI "instruction") (opt (chrCI 's')),
              .seq (strCI "task") (opt (chrCI 's')),
              .seq (strCI "command") (opt (chrCI 's')),
              .seq (strCI "prompt") (opt (chrCI 's')) ]))))))

/-- Pattern `\bdisregard\s+(all\s+)?(previous|prior|earlier|above)` with the i flag. -/
def reDisregard : RE :=
  .seq .wordB (.seq (strCI "disregard") (.seq (plus wsp) (.seq reAllOpt rePrevGroup)))

/-- Pattern `\bforget\s+(all\s+)?(previous|prior|earlier|your)\s+(instructions?|tasks?)` with the i flag. -/
def reForget : RE :=
  .seq .wordB (.seq (strCI "forget") (.seq (plus wsp) (.seq reAllOpt
    (.seq (alts [strCI "previous", strCI "prior", strCI "earlier", strCI "your"])
      (.seq (plus wsp)
        (alts [ .seq (strCI "instruction") (opt (chrCI 's')),
                .seq (strCI "task") (opt (chrCI 's')) ]))))))

/-- Pattern `\bnew\s+(task|instruction|goal|objective):\s*` with the i flag. -/
def reNewTask : RE :=
  .seq .wordB (.seq (strCI "new") (.seq (plus wsp)
    (.seq (alts [strCI "task", strCI "instruction", strCI "goal", strCI "objective"])
      (.seq (chr (Char.ofNat 58)) (.star wsp)))))

/-- Pattern `\b(system\s+prompt|system\s+message|initial\s+prompt)\b` with the i flag. -/
def reSystemRef : RE :=
  .seq .wordB (.seq
    (alts [ .seq (strCI "system") (.seq (plus wsp) (strCI "prompt")),
            .seq (strCI "system") (.seq (plus wsp) (strCI "message")),
            .seq (strCI "initial") (.seq (plus wsp) (strCI "prompt")) ])
    .wordB)

/-- Pattern `<\/?nano_untrusted_content>` with the i flag. -/
def reNanoUntrusted : RE :=
  .seq (chr (Char.ofNat 60)) (.seq (opt (chr (Char.ofNat 47)))
    (.seq (strCI "nano_untrusted_content") (chr (Char.ofNat 62))))

/-- Pattern `<\/?nano_[a-z_]+>` with the i flag. -/
def reNanoTag : RE :=
  .seq (chr (Char.ofNat 60)) (.seq (opt (chr (Char.ofNat 47)))
    (.seq (strCI "nano_")
      (.seq (plus (.cls (fun c => isAsciiLetterCI c || c = Char.ofNat 95)))
        (chr (Char.ofNat 62)))))

/-- Pattern `\b(delete|remove|drop)\s+(database|table|all\s+files?|everything)` with the i flag. -/
def reDestructive : RE :=
  .seq .wordB (.seq (alts [strCI "delete", strCI "remove", strCI "drop"])
    (.seq (plus wsp)
      (alts [ strCI "database", strCI "table",
              .seq (strCI "all") (.seq (plus wsp) (.seq (strCI "file") (opt (chrCI 's')))),
              strCI "everything" ])))

/-- Pattern `\b(format|wipe|erase)\s+(disk|drive|system)` with the i flag. -/
def reSystemDestroy : RE :=
  .seq .wordB (.seq (alts [strCI "format", strCI "wipe", strCI "erase"])
    (.seq (plus wsp) (alts [strCI "disk", strCI "drive", strCI "system"])))

/-- Pattern `\b\d\x7b3\x7d-\d\x7b2\x7d-\d\x7b4\x7d\b` (SSN). -/
def reSSN : RE :=
  .seq .wordB (.seq (repExact 3 digit) (.seq (chr (Char.ofNat 45))
    (.seq (repExact 2 digit) (.seq (chr (Char.ofNat 45))
      (.seq (repExact 4 digit) .wordB)))))

/-- Separator class `[\s-]?`. -/
def reSpaceDashOpt : RE := opt (.cls (fun c => isSpaceChar c || c = Char.ofNat 45))

/-- Pattern `\b\d\x7b4\x7d[\s-]?\d\x7b4\x7d[\s-]?\d\x7b4\x7d[\s-]?\d\x7b4\x7d\b` (credit card). -/
def reCreditCard : RE :=
  .seq .wordB (.seq (repExact 4 digit) (.seq reSpaceDashOpt
    (.seq (repExact 4 digit) (.seq reSpaceDashOpt
      (.seq (repExact 4 digit) (.seq reSpaceDashOpt
        (.seq (repExact 4 digit) .wordB)))))))

/-- Separator class `[_\s-]?`. -/
def reUnderscoreSpaceDashOpt : RE :=
  opt (.cls (fun c => c = Char.ofNat 95 || isSpaceChar c || c = Char.ofNat 45))

/-- Class `[\s:=]`. -/
def reSpaceColonEq : RE :=
  .cls (fun c => isSpaceChar c || c = Char.ofNat 58 || c = Char.ofNat 61)

/-- Pattern `\b(api[_\s-]?key|api[_\s-]?secret|access[_\s-]?token|bearer\s+token)[\s:=]+[a-z0-9_\-]\x7b20,\x7d` with the i flag. -/
def reApiKey : RE :=
  .seq .wordB (.seq
    (alts [ .seq (strCI "api") (.seq reUnderscoreSpaceDashOpt (strCI "key")),
            .seq (strCI "api") (.seq reUnderscoreSpaceDashOpt (strCI "secret")),
            .seq (strCI "access") (.seq reUnderscoreSpaceDashOpt (strCI "token")),
            .seq (strCI "bearer") (.seq (plus wsp) (strCI "token")) ])
    (.seq (plus reSpaceColonEq)
      (repAtLeast 20 (.cls (fun c =>
        isAsciiLetterCI c || (Char.ofNat 48 ≤ c && c ≤ Char.ofNat 57) ||
        c = Char.ofNat 95 || c = Char.ofNat 45)))))

/-- Pattern `\b(password|passwd|pwd)[\s:=]+\S\x7b6,\x7d` with the i flag. -/
def rePassword : RE :=
  .seq .wordB (.seq (alts [strCI "password", strCI "passwd", strCI "pwd"])
    (.seq (plus reSpaceColonEq) (repAtLeast 6 nonWsp)))

/-- Email pattern `\b[a-zA-Z0-9._%+-]+@[a-zA-Z0-9.-]+\.[a-zA-Z]\x7b2,\x7d\b` (strict mode). -/
def reEmail : RE :=
  .seq .wordB (.seq
    (plus (.cls (fun c => isAsciiLetterCI c || (Char.ofNat 48 ≤ c && c ≤ Char.ofNat 57) ||
      c = Char.ofNat 46 || c = Char.ofNat 95 || c = Char.ofNat 37 ||
      c = Char.ofNat 43 || c = Char.ofNat 45)))
    (.seq (chr (Char.ofNat 64))
      (.seq (plus (.cls (fun c => isAsciiLetterCI c ||
          (Char.ofNat 48 ≤ c && c ≤ Char.ofNat 57) ||
          c = Char.ofNat 46 || c = Char.ofNat 45)))
        (.seq (chr (Char.ofNat 46))
          (.seq (repAtLeast 2 (.cls isAsciiLetterCI)) .wordB)))))

/-- Phone pattern `\b\d\x7b3\x7d[-.]?\d\x7b3\x7d[-.]?\d\x7b4\x7d\b` (strict mode). -/
def rePhone : RE :=
  .seq .wordB (.seq (repExact 3 digit)
    (.seq (opt (.cls (fun c => c = Char.ofNat 45 || c = Char.ofNat 46)))
      (.seq (repExact 3 digit)
        (.seq (opt (.cls (fun c => c = Char.ofNat 45 || c = Char.ofNat 46)))
          (.seq (repExact 4 digit) .wordB)))))

/-- The SECURITY_PATTERNS array, in source order. -/
def SECURITY_PATTERNS : List SecPattern :=
  [ { pattern := reIgnoreInstructions, ptype := .task_override,
      replacement := some "[BLOCKED_OVERRIDE_ATTEMPT]".toList, severity := .critical },
    { pattern := reDisregard, ptype := .task_override,
      replacement := some "[BLOCKED_OVERRIDE_ATTEMPT]".toList, severity := .critical },
    { pattern := reForget, ptype := .task_override,
      replacement := some "[BLOCKED_OVERRIDE_ATTEMPT]".toList, severity := .critical },
    { pattern := reNewTask, ptype := .task_override,
      replacement := some "[BLOCKED_NEW_TASK]".toList, severity := .critical },
    { pattern := reSystemRef, ptype := .system_reference,
      replacement := some "[BLOCKED_SYSTEM_REFERENCE]".toList, severity := .high },
    { pattern := reNanoUntrusted, ptype := .prompt_injection,
      replacement := some [], severity := .critical },
    { pattern := reNanoTag, ptype := .prompt_injection,
      replacement := some [], severity := .high },
    { pattern := reDestructive, ptype := .dangerous_action,
      replacement := some "[BLOCKED_DANGEROUS_ACTION]".toList, severity := .critical },
    { pattern := reSystemDestroy, ptype := .dangerous_action,
      replacement := some "[BLOCKED_DANGEROUS_ACTION]".toList, severity := .critical },
    { pattern := reSSN, ptype := .sensitive_data,
      replacement := some "[REDACTED_SSN]".toList, severity := .high },
    { pattern := reCreditCard, ptype := .sensitive_data,
      replacement := some "[REDACTED_CC]".toList, severity := .high },
    { pattern := reApiKey, ptype := .credential_leak,
      replacement := some "[REDACTED_API_KEY]".toList, severity := .critical },
    { pattern := rePassword, ptype := .credential_leak,
      replacement := some "[REDACTED_PASSWORD]".toList, severity := .critical } ]

/-- The STRICT_PATTERNS array, in source order. -/
def STRICT_PATTERNS : List SecPattern :=
  [ { pattern := reEmail, ptype := .sensitive_data,
      replacement := some "[REDACTED_EMAIL]".toList, severity := .medium },
    { pattern := rePhone, ptype := .sensitive_data,
      replacement := some "[REDACTED_PHONE]".toList, severity := .medium } ]

/-- Zero-width character class (U+200B through U+200D, and U+FEFF). -/
def reZeroWidth : RE :=
  .cls (fun c => (Char.ofNat 0x200B ≤ c && c ≤ Char.ofNat 0x200D) || c = Char.ofNat 0xFEFF)

/-- Run of spaces and tabs `[ \t]+`. -/
def reSpaceTabRun : RE := plus (.cls (fun c => c = ' ' || c = Char.ofNat 9))

/-- Three or more newlines `\n\x7b3,\x7d`. -/
def reNewlines3 : RE := repAtLeast 3 (chr (Char.ofNat 10))

/-- Shallow embedding of `normalizeText`: strip zero-width characters,
collapse space/tab runs to a single space, cap newline runs at two. -/
def normalizeText (s : List Char) : List Char :=
  let s1 := replaceGlobal reZeroWidth [] s
  let s2 := replaceGlobal reSpaceTabRun [' '] s1
  replaceGlobal reNewlines3 [Char.ofNat 10, Char.ofNat 10] s2

/-- Count of leading characters satisfying `p`. -/
def leadingCount (p : Char → Bool) : List Char → Nat
  | [] => 0
  | c :: rest => if p c then leadingCount p rest + 1 else 0

/-- Try to complete a `<(\w+)[^>]*>\s*<\/\1>` match given the text after the
opening `<` and a candidate capture length `k` (JavaScript backtracks the
greedy `\w+` capture from longest to shortest); returns the total match
length including the opening `<`. -/
def tryTagLen (rest : List Char) : Nat → Option Nat
  | 0 => none
  | k + 1 =>
    let tag := rest.take (k + 1)
    let after := rest.drop (k + 1)
    let gap := leadingCount (fun c => c ≠ Char.ofNat 62) after
    match after.get? gap with
    | some _ =>
      let rest2 := after.drop (gap + 1)
      let ws := leadingCount isSpaceChar rest2
      let rest3 := rest2.drop ws
      match rest3 with
      | c1 :: c2 :: rest4 =>
        if c1 = Char.ofNat 60 && c2 = Char.ofNat 47 &&
            startsWithChars tag rest4 &&
            (rest4.drop tag.length).head? = some (Char.ofNat 62) then
          some (1 + (k + 1) + gap + 1 + ws + 2 + tag.length + 1)
        else tryTagLen rest k
      | _ => tryTagLen rest k
    | none => tryTagLen rest k

/-- Match length of `<(\w+)[^>]*>\s*<\/\1>` at the current position, if any.
The backreference forces a bespoke matcher: `[^>]*` and `\s*` are
deterministic up to the following required literal, and only the `\w+`
capture length backtracks. -/
def tryEmptyTagAt (s : List Char) : Option Nat :=
  match s with
  | c :: rest =>
    if c = Char.ofNat 60 then
      let wlen := leadingCount isWordChar rest
      if wlen = 0 then none else tryTagLen rest wlen
    else none
  | [] => none

/-- One pass removing `<tag ...></tag>` pairs (`replace` with the
backreference regex and empty replacement): non-overlapping matches deleted
left to right against the original string. -/
def removeEmptyTagPairs : Nat → List Char → List Char
  | 0, _ => []
  | _ + 1, [] => []
  | fuel + 1, s =>
    match s with
    | [] => []
    | c :: rest =>
      match tryEmptyTagAt s with
      | some n => removeEmptyTagPairs fuel (s.drop n)
      | none => c :: removeEmptyTagPairs fuel rest

/-- Stray empty tag `<\s*\/?\s*>`. -/
def reStrayTag : RE :=
  .seq (chr (Char.ofNat 60)) (.seq (.star wsp)
    (.seq (opt (chr (Char.ofNat 47))) (.seq (.star wsp) (chr (Char.ofNat 62)))))

/-- Shallow embedding of `cleanEmptyTags`: remove empty element pairs, then
stray empty tags. -/
def cleanEmptyTags (s : List Char) : List Char :=
  let s1 := removeEmptyTagPairs (s.length + 1) s
  replaceGlobal reStrayTag [] s1

/-- Result of `sanitizeContent`. -/
structure SanitizationResult where
  sanitized : List Char
  threats : List ThreatType
  modified : Bool
  severity : Severity

/-- Add a threat tag to the accumulated set (JavaScript `Set` keeps
insertion order and ignores duplicates). -/
def addThreat (ts : List ThreatType) (t : ThreatType) : List ThreatType :=
  if ts.contains t then ts else ts ++ [t]

/-- One iteration of the `sanitizeContent` pattern loop: when the pattern
matches the current text, record the threat, apply the global replacement
when a replacement string is defined, and raise the maximal severity. -/
def applyPattern (st : SanitizationResult) (p : SecPattern) : SanitizationResult :=
  if hasMatch p.pattern st.sanitized then
    { sanitized :=
        match p.replacement with
        | some r => replaceGlobal p.pattern r st.sanitized
        | none => st.sanitized
      threats := addThreat st.threats p.ptype
      modified := if p.replacement.isSome then true else st.modified
      severity :=
        if severityOrder st.severity < severityOrder p.severity then p.severity
        else st.severity }
  else st

/-- The active pattern family: the base patterns, plus the strict patterns
when strict mode is set. -/
def activePatterns (strict : Bool) : List SecPattern :=
  SECURITY_PATTERNS ++ (if strict then STRICT_PATTERNS else [])

/-- Shallow embedding of `sanitizeContent(content, strict)`: normalize, fold
the active patterns in order, and clean empty tags when any replacement was
applied. -/
def sanitizeContent (content : List Char) (strict : Bool) : SanitizationResult :=
  let s0 := normalizeText content
  let fin := (activePatterns strict).foldl applyPattern
    { sanitized := s0, threats := [], modified := false, severity := .low }
  { fin with
    sanitized := if fin.modified then cleanEmptyTags fin.sanitized else fin.sanitized }

end Guardrails

/-! ## Concrete sample data used by the counterexamples and witnesses -/

namespace Samples

open Enhanced

/-- A navigate action as the planner produces it. -/
def navAction : BrowserAction :=
  { type := "navigate", params := [("url", Redxt.Json.str "https://example.com")] }

/-- The initial browser state written by `handleInit`. -/
def initialBrowserState : BrowserState :=
  { url := "", title := "", dom := "", timestamp := 0 }

/-- All-zero cache statistics. -/
def zeroStats : CacheStats :=
  { hits := 0, misses := 0, evictions := 0, totalSize := 0, hitRate := 0 }

/-- All-zero metrics, as `handleInit` writes them. -/
def zeroMetrics : SessionMetrics :=
  { totalSteps := 0, successfulActions := 0, failedActions := 0, retriedActions := 0
    totalExecutionTime := 0, llmCalls := 0, llmTokensUsed := 0
    securityThreatsDetected := 0, cacheHitRate := 0 }

/-- The DEFAULT_CONFIG of the enhanced durable object. -/
def defaultConfig : SessionConfig :=
  { maxSteps := 50, enableVision := true, enableReplay := true, enableAnalytics := true
    strictSecurity := true, retryStrategy := Redxt.DEFAULT_RETRY_STRATEGY
    toolsEnabled := ["click", "type", "navigate", "scroll", "extract", "wait", "complete"] }

/-- The task created by `handleExecute`. -/
def task1 : Task :=
  { id := "task-1", description := "Visit example.com", status := .running
    priority := 1, createdAt := 0, startedAt := some 0 }

/-- A follow-up task appended with status pending. -/
def task2 : Task :=
  { id := "task-2", description := "Now read the title", status := .pending
    priority := 2, createdAt := 0 }

/-- The session right after `handleExecute`: one running task, planning. -/
def execSession : SessionDO :=
  { sessionState :=
      { sessionId := "session-1", tasks := [task1], currentTaskIndex := 0, stepCount := 0
        executionState := .planning, actionHistory := [], plannerHistory := []
        browserState := initialBrowserState, cacheStats := zeroStats
        config := defaultConfig, metrics := zeroMetrics, createdAt := 0, updatedAt := 0 }
    actionQueue := [] }

/-- A planner output with a non-terminal next action. -/
def poNext : PlannerOutput :=
  { plan := none, nextAction := navAction, reasoning := "navigate first"
    confidence := 7/10, needsRevision := false, taskComplete := false, result := none }

/-- A planner output reporting task completion. -/
def poDone : PlannerOutput :=
  { plan := none, nextAction := navAction, reasoning := "arrived"
    confidence := 9/10, needsRevision := false, taskComplete := true, result := some "Arrived" }

/-- A failing action-result body. -/
def failBody : ActionResultBody := { success := false, error := some "element not found" }

/-- A successful action-result body. -/
def okBody : ActionResultBody := { success := true }

/-- One full round of the loop ending in a browser-side failure: plan a step,
deliver the queued action to a `next-action` poll, then post a failing
`action-result`. -/
def stepFail (o : SessionDO) : SessionDO :=
  handleActionResult failBody 0 (handleNextAction (planNextStep poNext none zeroStats 0 o)).fst

/-- The session after three consecutive failing rounds. -/
def threeFailures : SessionDO := stepFail (stepFail (stepFail execSession))

/-- A session in `waiting_for_browser` with one queued action. -/
def waitingSession : SessionDO :=
  { sessionState := { execSession.sessionState with executionState := .waitingForBrowser }
    actionQueue := [navAction] }

/-- A session whose execution state is terminal `completed`. -/
def completedSession : SessionDO :=
  { execSession with
    sessionState := { execSession.sessionState with executionState := .completed } }

/-- A session whose execution state is terminal `error`. -/
def errorSession : SessionDO :=
  { execSession with
    sessionState := { execSession.sessionState with executionState := .error } }

/-- A session with a running task and a pending follow-up task. -/
def twoTaskSession : SessionDO :=
  { execSession with
    sessionState := { execSession.sessionState with tasks := [task1, task2] } }

/-- The two-task session after the planner reports the current task complete. -/
def afterTerminal : SessionDO := planNextStep poDone none zeroStats 0 twoTaskSession

/-- Plan a step, then poll `next-action`: the pair of the durable object after
the poll and the delivered response. -/
def deliveredAfterPlan : SessionDO × NextActionResponse :=
  handleNextAction (planNextStep poNext none zeroStats 0 execSession)

/-- The session after the successful `action-result` that follows the
delivery. -/
def reportedAfterDelivery : SessionDO := handleActionResult okBody 0 deliveredAfterPlan.fst

/-- A running task of the multi-agent variant. -/
def maTask : MultiAgent.Task :=
  { id := "t1", description := "Visit example.com", status := .running
    createdAt := 0, updatedAt := 0 }

/-- A click action of the multi-agent variant. -/
def maAction : MultiAgent.Action := { type := "click", id := "a1" }

/-- A failing action result of the multi-agent variant. -/
def maFailResult : MultiAgent.ActionResult :=
  { actionId := "a1", success := false, error := some "click failed", timestamp := 0 }

/-- A multi-agent session with a pending current action and two consecutive
failures already recorded (`maxFailures` is 3 in the default config). -/
def maState : MultiAgent.SessionState :=
  { sessionId := "s1", tasks := [maTask], currentTaskIndex := 0
    currentAction := some maAction, executionState := .waitingForResult
    browserState := none, actionHistory := [], createdAt := 0, updatedAt := 0
    stepCount := 1, consecutiveFailures := 2, config := MultiAgent.DEFAULT_CONFIG }

end Samples

/-! ## Theorems -/

/-- Looking up a key that occurs in `names` in the association list built by
pairing each name with `g` of it yields `g` of the key. -/
theorem lookupField_map_pair (g : String → Json) (names : List String) (f : String)
    (hf : f ∈ names) :
    lookupField (names.map (fun x => (x, g x))) f = some (g f) := by
  induction names with
  | nil => cases hf
  | cons x rest ih =>
    by_cases hx : x = f
    · subst hx
      simp [lookupField]
    · have hf2 : f ∈ rest := by
        rcases List.mem_cons.mp hf with h | h
        · exact absurd h.symm hx
        · exact h
      simpa [lookupField, hx] using ih hf2

/-- Claim C10: a subscriber callback that throws is caught inside its own
try/catch, so event emission never aborts and every listener is invoked
(the loop reaches all `listeners.length` callbacks regardless of thrown
exceptions; the session state is not read or written by `emitEvent`). -/
theorem c10_emit_event_isolated (listeners : List (EventData → Except String Unit))
    (event : EventData) :
    emitEvent listeners event = .ok listeners.length := by
  induction listeners with
  | nil => rfl
  | cons l rest ih => cases hl : l event <;> simp [emitEvent, hl, ih, Except.map]

/-- Claim C6 (counterexample): the message "timeout" contains the substring
"timeout" and none of the rate-limit substrings, yet `categorizeError`
returns the network category, because the network branch also tests for
"timeout" and runs before the timeout branch. -/
theorem c6_counterexample :
    categorizeError "timeout" false = .network ∧
    ErrorCategory.network ≠ ErrorCategory.timeout ∧
    strContains (lowerStr "timeout") "timeout" = true ∧
    strContains (lowerStr "timeout") "rate limit" = false ∧
    strContains (lowerStr "timeout") "429" = false := by
  refine ⟨by decide, by decide, by decide, by decide, by decide⟩

/-- Claim C6 (amended): the timeout category is reached exactly by messages
containing "timed out" but not "timeout" and none of the rate-limit or
network substrings; and every message containing "network", "econnrefused",
"fetch failed" or "timeout" (case-insensitive, no rate-limit substring) is
classified network. -/
theorem c6_amended_categorize (message : String) (crit : Bool) :
    (categorizeError message crit = .timeout ↔
      (strContains (lowerStr message) "timed out" = true ∧
       strContains (lowerStr message) "timeout" = false ∧
       strContains (lowerStr message) "rate limit" = false ∧
       strContains (lowerStr message) "429" = false ∧
       strContains (lowerStr message) "network" = false ∧
       strContains (lowerStr message) "econnrefused" = false ∧
       strContains (lowerStr message) "fetch failed" = false)) ∧
    ((strContains (lowerStr message) "network" = true ∨
      strContains (lowerStr message) "econnrefused" = true ∨
      strContains (lowerStr message) "fetch failed" = true ∨
      strContains (lowerStr message) "timeout" = true) →
     strContains (lowerStr message) "rate limit" = false →
     strContains (lowerStr message) "429" = false →
     categorizeError message crit = .network) := by
  constructor
  · constructor
    · intro h
      simp only [categorizeError] at h
      split at h
      · simp_all
      · split at h
        · simp_all
        · split at h
          · simp_all
          · split at h
            · simp_all
            · split at h <;> simp_all
    · intro h
      obtain ⟨h7, h4, h1, h2, h3, h5, h6⟩ := h
      simp [categorizeError, h1, h2, h3, h4, h5, h6, h7]
  · intro hd h1 h2
    rcases hd with h | h | h | h <;> simp [categorizeError, h, h1, h2]

/-- Claim C6 (witness): the amended classification at concrete messages,
including "connection timeout" landing in the network category. -/
theorem c6_witness :
    categorizeError "timed out" false = .timeout ∧
    categorizeError "network error" false = .network ∧
    categorizeError "connection timeout" false = .network :=
  ⟨(c6_amended_categorize "timed out" false).1.mpr
      ⟨by decide, by decide, by decide, by decide, by decide, by decide, by decide⟩,
   (c6_amended_categorize "network error" false).2 (Or.inl (by decide))
      (by decide) (by decide),
   (c6_amended_categorize "connection timeout" false).2
      (Or.inr (Or.inr (Or.inr (by decide)))) (by decide) (by decide)⟩

/-- Claim C8 (counterexample): for the retry strategy with backoffMs = 1000
and maxBackoffMs = 500, the backoff of attempt 1 is 500, strictly below
`backoffMs`, so `backoff(k) >= backoffMs` fails for an arbitrary strategy. -/
theorem c8_counterexample :
    calculateBackoff 1 cappedStrategy = 500 ∧
    cappedStrategy.backoffMs = 1000 ∧
    calculateBackoff 1 cappedStrategy < cappedStrategy.backoffMs ∧
    1 ≤ cappedStrategy.maxRetries := by
  refine ⟨?_, rfl, ?_, by decide⟩ <;> norm_num [calculateBackoff, cappedStrategy]

/-- Claim C8 (amended): the computed backoff always equals the spec formula
`min(backoffMs * backoffMultiplier ^ (k-1), maxBackoffMs)` and is bounded by
`maxBackoffMs`; the lower bound `backoff(k) >= backoffMs` additionally needs a
well-formed strategy (`0 <= backoffMs <= maxBackoffMs`, `backoffMultiplier >= 1`)
and `k >= 1`. -/
theorem c8_amended_backoff_bounds (s : RetryStrategy) (k : Nat) :
    calculateBackoff k s = specBackoff k s ∧
    calculateBackoff k s ≤ s.maxBackoffMs ∧
    (1 ≤ k → 0 ≤ s.backoffMs → 1 ≤ s.backoffMultiplier →
      s.backoffMs ≤ s.maxBackoffMs → s.backoffMs ≤ calculateBackoff k s) := by
  refine ⟨rfl, min_le_right _ _, ?_⟩
  intro _ h0 h1 hbm
  refine le_min ?_ hbm
  have hpow : (1 : ℚ) ≤ s.backoffMultiplier ^ (k - 1) := one_le_pow₀ h1
  exact le_mul_of_one_le_right h0 hpow

/-- Claim C8 (witness): the amended bounds at the default retry strategy and
attempt 2. -/
theorem c8_witness :
    calculateBackoff 2 DEFAULT_RETRY_STRATEGY = specBackoff 2 DEFAULT_RETRY_STRATEGY ∧
    calculateBackoff 2 DEFAULT_RETRY_STRATEGY ≤ DEFAULT_RETRY_STRATEGY.maxBackoffMs ∧
    DEFAULT_RETRY_STRATEGY.backoffMs ≤ calculateBackoff 2 DEFAULT_RETRY_STRATEGY :=
  ⟨(c8_amended_backoff_bounds DEFAULT_RETRY_STRATEGY 2).1,
   (c8_amended_backoff_bounds DEFAULT_RETRY_STRATEGY 2).2.1,
   (c8_amended_backoff_bounds DEFAULT_RETRY_STRATEGY 2).2.2 (by norm_num)
     (by norm_num [DEFAULT_RETRY_STRATEGY]) (by norm_num [DEFAULT_RETRY_STRATEGY])
     (by norm_num [DEFAULT_RETRY_STRATEGY])⟩

/-- Claim C9 (counterexample): `EnhancedCoordinator.runExtractor` returns the
parsed LLM reply as `extractedData` unchanged, so with the reply being the
empty JSON object and a requested field "title", the field is absent from the
result rather than recorded as null. -/
theorem c9_counterexample :
    enhancedRunExtractor (some []) =
      .ok { extractedData := [], confidence := 9/10 } ∧
    lookupField [] "title" = none ∧
    (none : Option Json) ≠ some Json.null :=
  ⟨rfl, rfl, by simp⟩

/-- Claim C9 (amended): in `ExtractorAgent.parseExtractorOutput` every
requested field is mapped to a value — the reply value when present, null
when the field is missing from the reply or the reply failed to parse;
`EnhancedCoordinator.runExtractor` instead returns the parsed reply as is. -/
theorem c9_amended_extractor_fields (parsed : Option (List (String × Json)))
    (fields : List String) (f : String) (hf : f ∈ fields) :
    lookupField (parseExtractorOutput parsed fields) f =
      some (match parsed with
            | some objFields => (lookupField objFields f).getD Json.null
            | none => Json.null) := by
  cases parsed with
  | some objFields =>
    exact lookupField_map_pair (fun x => (lookupField objFields x).getD Json.null) fields f hf
  | none =>
    exact lookupField_map_pair (fun _ => Json.null) fields f hf

/-- Claim C9 (witness): a requested field missing from the parsed reply is
recorded as null by `parseExtractorOutput`. -/
theorem c9_witness :
    lookupField (parseExtractorOutput (some []) ["title"]) "title" = some Json.null :=
  c9_amended_extractor_fields (some []) ["title"] "title" (by simp)

/-- Updating the current task leaves the execution state unchanged. -/
theorem Enhanced.mapCurrentTask_executionState (s : Enhanced.SessionState)
    (f : Enhanced.Task → Enhanced.Task) :
    (Enhanced.mapCurrentTask s f).executionState = s.executionState := by
  unfold Enhanced.mapCurrentTask
  split
  · split <;> rfl
  · rfl

/-- Updating the current task leaves the current task index unchanged. -/
theorem Enhanced.mapCurrentTask_index (s : Enhanced.SessionState)
    (f : Enhanced.Task → Enhanced.Task) :
    (Enhanced.mapCurrentTask s f).currentTaskIndex = s.currentTaskIndex := by
  unfold Enhanced.mapCurrentTask
  split
  · split <;> rfl
  · rfl

/-- Claim C1 (counterexample): in the enhanced durable object a trace of
three consecutive failing action-result rounds (each round: plan, deliver via
`next-action`, post a failing `action-result`) leaves the task running and
the FSM in `executing`, never `error` — the enhanced session state tracks no
`consecutiveFailures` counter and its config has no `maxFailures`, so no
number of consecutive browser-side failures ever fails the task. -/
theorem c1_counterexample :
    (Samples.threeFailures.sessionState.tasks.map Enhanced.Task.status
      = [Enhanced.TaskStatus.running]) ∧
    Samples.threeFailures.sessionState.executionState = Enhanced.ExecState.executing ∧
    Enhanced.ExecState.executing ≠ Enhanced.ExecState.error ∧
    Samples.threeFailures.sessionState.metrics.failedActions = 3 := by
  refine ⟨by decide, by decide, by decide, by decide⟩

/-- Claim C1 (amended): only the multi-agent variant tracks the counter.  In
its `handleActionResult`, when a `currentAction` is pending, a successful
result resets `consecutiveFailures` to 0, a failing result increments it,
and when the incremented counter reaches `maxFailures` the execution state
becomes `failed` (this variant's failure terminal; its enum has no `error`)
and the current task's status becomes `failed`.  The enhanced variant tracks
no counter and never fails a task on action-result failures. -/
theorem c1_amended_failure_counter (body : MultiAgent.ActionResult) (now : Nat)
    (s : MultiAgent.SessionState) (act : MultiAgent.Action) (t : MultiAgent.Task)
    (hact : s.currentAction = some act) (ht : MultiAgent.currentTask s = some t) :
    (body.success = true →
      (MultiAgent.handleActionResult body now s).consecutiveFailures = 0) ∧
    (body.success = false →
      (MultiAgent.handleActionResult body now s).consecutiveFailures
        = s.consecutiveFailures + 1) ∧
    (body.success = false → s.config.maxFailures ≤ s.consecutiveFailures + 1 →
      (MultiAgent.handleActionResult body now s).executionState
          = MultiAgent.ExecState.failed ∧
      (MultiAgent.currentTask (MultiAgent.handleActionResult body now s)).map
          MultiAgent.Task.status = some Enhanced.TaskStatus.failed) := by
  obtain ⟨i, hidx⟩ : ∃ i, s.currentTaskIndex = Int.ofNat i := by
    cases hix : s.currentTaskIndex with
    | ofNat i => exact ⟨i, rfl⟩
    | negSucc i => rw [MultiAgent.currentTask, hix] at ht; cases ht
  have hget : s.tasks.get? i = some t := by
    rw [MultiAgent.currentTask, hidx] at ht; exact ht
  have hget2 : s.tasks[i]? = some t := by
    rw [← List.get?_eq_getElem?]; exact hget
  refine ⟨?_, ?_, ?_⟩
  · intro hs
    unfold MultiAgent.handleActionResult
    rw [hact]
    cases body.domState <;> simp [hs] <;> split <;> rfl
  · intro hs
    unfold MultiAgent.handleActionResult
    rw [hact]
    by_cases hm : s.config.maxFailures ≤ s.consecutiveFailures + 1
    · cases body.domState <;>
        simp [hs, hm, MultiAgent.mapCurrentTask, hidx, hget2]
    · cases body.domState <;> simp [hs, hm] <;> split <;> simp_all
  · intro hs hmax
    unfold MultiAgent.handleActionResult
    rw [hact]
    cases body.domState <;>
      simp [hs, hmax, MultiAgent.mapCurrentTask, hidx, hget2, MultiAgent.currentTask,
        List.getElem?_set_self']

/-- Claim C1 (witness): the amended behaviour at a concrete multi-agent
session with two prior consecutive failures and `maxFailures = 3`. -/
theorem c1_witness :
    (MultiAgent.handleActionResult Samples.maFailResult 0 Samples.maState).consecutiveFailures
      = Samples.maState.consecutiveFailures + 1 ∧
    (MultiAgent.handleActionResult Samples.maFailResult 0 Samples.maState).executionState
      = MultiAgent.ExecState.failed ∧
    (MultiAgent.currentTask
        (MultiAgent.handleActionResult Samples.maFailResult 0 Samples.maState)).map
      MultiAgent.Task.status = some Enhanced.TaskStatus.failed :=
  ⟨(c1_amended_failure_counter Samples.maFailResult 0 Samples.maState Samples.maAction
      Samples.maTask rfl rfl).2.1 rfl,
   ((c1_amended_failure_counter Samples.maFailResult 0 Samples.maState Samples.maAction
      Samples.maTask rfl rfl).2.2 rfl (by decide)).1,
   ((c1_amended_failure_counter Samples.maFailResult 0 Samples.maState Samples.maAction
      Samples.maTask rfl rfl).2.2 rfl (by decide)).2⟩

/-- Claim C2 (counterexample): a `next-action` poll on a session in
`waiting_for_browser` with a queued action delivers the action but leaves
the execution state at `waiting_for_browser`, not `executing`. -/
theorem c2_counterexample :
    ((Enhanced.handleNextAction Samples.waitingSession).snd
      = Enhanced.NextActionResponse.delivered Samples.navAction) ∧
    (Enhanced.handleNextAction Samples.waitingSession).fst.sessionState.executionState
      = Enhanced.ExecState.waitingForBrowser ∧
    Enhanced.ExecState.waitingForBrowser ≠ Enhanced.ExecState.executing :=
  ⟨rfl, rfl, by decide⟩

/-- Claim C2 (amended): delivering the queued action through `next-action`
never changes the execution state; the transition from `waiting_for_browser`
to `executing` happens when the following `action-result` is received. -/
theorem c2_amended_delivery_keeps_state (o : Enhanced.SessionDO) :
    ((Enhanced.handleNextAction o).fst.sessionState.executionState
      = o.sessionState.executionState) ∧
    (∀ (body : Enhanced.ActionResultBody) (now : Nat),
      o.sessionState.executionState = Enhanced.ExecState.waitingForBrowser →
      (Enhanced.handleActionResult body now o).sessionState.executionState
        = Enhanced.ExecState.executing) := by
  constructor
  · unfold Enhanced.handleNextAction
    split <;> rfl
  · intro body now h
    simp [Enhanced.handleActionResult, h]

/-- Claim C2 (witness): the amended statement at the concrete waiting
session. -/
theorem c2_witness :
    (Enhanced.handleNextAction Samples.waitingSession).fst.sessionState.executionState
      = Samples.waitingSession.sessionState.executionState ∧
    (Enhanced.handleActionResult Samples.okBody 0 Samples.waitingSession).sessionState.executionState
      = Enhanced.ExecState.executing :=
  ⟨(c2_amended_delivery_keeps_state Samples.waitingSession).1,
   (c2_amended_delivery_keeps_state Samples.waitingSession).2 Samples.okBody 0 rfl⟩

/-- Claim C3: the delivered action is not the one recorded.  In the trace
plan, deliver, report: `next-action` delivers the navigate action (shifting
it off the queue), and the subsequent `action-result` appends an
`ActionRecord` built from `actionQueue[0]` of the now-empty queue, i.e. the
placeholder `unknown` action, not the delivered navigate action. -/
theorem c3_placeholder_recorded :
    (match Samples.deliveredAfterPlan.snd with
      | Enhanced.NextActionResponse.delivered a => a.type
      | Enhanced.NextActionResponse.waiting _ => "") = "navigate" ∧
    Samples.reportedAfterDelivery.sessionState.actionHistory.map
      (fun r => r.action.type) = ["unknown"] ∧
    Samples.navAction.type ≠ "unknown" := by
  refine ⟨by decide, by decide, by decide⟩

/-- Claim C4 (counterexample): a session with a running task and a pending
follow-up task, whose planner reports completion: the current task becomes
`completed` and the FSM `completed`, but `currentTaskIndex` stays 0 and the
follow-up task stays `pending` — the FSM does not advance to it. -/
theorem c4_counterexample :
    Samples.afterTerminal.sessionState.tasks.map Enhanced.Task.status
      = [Enhanced.TaskStatus.completed, Enhanced.TaskStatus.pending] ∧
    Samples.afterTerminal.sessionState.executionState = Enhanced.ExecState.completed ∧
    Samples.afterTerminal.sessionState.currentTaskIndex = 0 := by
  refine ⟨by decide, by decide, by decide⟩

/-- Claim C4 (amended): in the enhanced durable object, `follow-up` appends a
new task with status `pending` without touching `currentTaskIndex`, and no
planning cycle ever changes `currentTaskIndex` — so task termination never
advances the FSM to a pending follow-up task (only `execute`, which makes its
own new task current, does). -/
theorem c4_amended_no_advance :
    (∀ (description taskId : String) (now : Nat) (o : Enhanced.SessionDO),
      (Enhanced.handleFollowUp description taskId now o).sessionState.currentTaskIndex
        = o.sessionState.currentTaskIndex ∧
      (Enhanced.handleFollowUp description taskId now o).sessionState.tasks.map
          Enhanced.Task.status
        = o.sessionState.tasks.map Enhanced.Task.status ++ [Enhanced.TaskStatus.pending]) ∧
    (∀ (po : Enhanced.PlannerOutput) (cachedDOM : Option String)
        (stats : Enhanced.CacheStats) (now : Nat) (o : Enhanced.SessionDO),
      (Enhanced.planNextStep po cachedDOM stats now o).sessionState.currentTaskIndex
        = o.sessionState.currentTaskIndex) := by
  constructor
  · intro description taskId now o
    exact ⟨rfl, by simp [Enhanced.handleFollowUp]⟩
  · intro po cachedDOM stats now o
    unfold Enhanced.planNextStep
    split
    · rfl
    · split
      · rfl
      · split
        · simp [Enhanced.mapCurrentTask_index]
        · split
          · split <;> split <;> simp [Enhanced.mapCurrentTask_index]
          · split <;> split <;> simp [Enhanced.mapCurrentTask_index]

/-- Claim C5 (counterexample): `pause` received in the terminal state
`completed` moves the execution state to `paused`, and `cancel` received in
the terminal state `error` moves it to `completed` — terminal states are not
left unchanged. -/
theorem c5_counterexample :
    Samples.completedSession.sessionState.executionState = Enhanced.ExecState.completed ∧
    (Enhanced.handlePause 0 Samples.completedSession).sessionState.executionState
      = Enhanced.ExecState.paused ∧
    Enhanced.ExecState.paused ≠ Enhanced.ExecState.completed ∧
    Samples.errorSession.sessionState.executionState = Enhanced.ExecState.error ∧
    (Enhanced.handleCancel 0 Samples.errorSession).sessionState.executionState
      = Enhanced.ExecState.completed ∧
    Enhanced.ExecState.completed ≠ Enhanced.ExecState.error := by
  refine ⟨by decide, by decide, by decide, by decide, by decide, by decide⟩

/-- Claim C5 (amended): `pause` unconditionally sets the execution state to
`paused` and `cancel` unconditionally sets it to `completed`, from every
state including the terminal states `completed` and `error`. -/
theorem c5_amended_pause_cancel_any_state (now : Nat) (o : Enhanced.SessionDO) :
    (Enhanced.handlePause now o).sessionState.executionState
      = Enhanced.ExecState.paused ∧
    (Enhanced.handleCancel now o).sessionState.executionState
      = Enhanced.ExecState.completed := by
  constructor
  · simp [Enhanced.handlePause, Enhanced.mapCurrentTask_executionState]
  · simp [Enhanced.handleCancel, Enhanced.mapCurrentTask_executionState]

/-- Adding a threat tag to the accumulated set never yields the empty set. -/
theorem Guardrails.addThreat_ne_nil (ts : List Guardrails.ThreatType)
    (t : Guardrails.ThreatType) : Guardrails.addThreat ts t ≠ [] := by
  unfold Guardrails.addThreat
  split
  · intro h
    subst h
    simp_all
  · simp

/-- A sanitization step that ends with no recorded threats did nothing: the
pattern did not match and the state is unchanged. -/
theorem Guardrails.applyPattern_clean (st : Guardrails.SanitizationResult)
    (p : Guardrails.SecPattern)
    (h : (Guardrails.applyPattern st p).threats = []) :
    Guardrails.applyPattern st p = st ∧
    Guardrails.hasMatch p.pattern st.sanitized = false := by
  by_cases hm : Guardrails.hasMatch p.pattern st.sanitized = true
  · exfalso
    apply Guardrails.addThreat_ne_nil st.threats p.ptype
    have hth : (Guardrails.applyPattern st p).threats
        = Guardrails.addThreat st.threats p.ptype := by
      simp [Guardrails.applyPattern, hm]
    rw [← hth]
    exact h
  · have hm2 : Guardrails.hasMatch p.pattern st.sanitized = false := by simpa using hm
    exact ⟨by simp [Guardrails.applyPattern, hm2], hm2⟩

/-- A pattern fold that ends with no recorded threats left the state
untouched, and none of the folded patterns matches the (unchanged) text. -/
theorem Guardrails.foldl_applyPattern_clean (ps : List Guardrails.SecPattern)
    (st : Guardrails.SanitizationResult)
    (h : (ps.foldl Guardrails.applyPattern st).threats = []) :
    ps.foldl Guardrails.applyPattern st = st ∧
    (ps.all fun p => !Guardrails.hasMatch p.pattern st.sanitized) = true := by
  induction ps generalizing st with
  | nil => exact ⟨rfl, rfl⟩
  | cons p rest ih =>
    have h2 : (rest.foldl Guardrails.applyPattern (Guardrails.applyPattern st p)).threats
        = [] := h
    obtain ⟨hfold, hall⟩ := ih (Guardrails.applyPattern st p) h2
    have hth : (Guardrails.applyPattern st p).threats = [] := by
      rw [hfold] at h2
      exact h2
    obtain ⟨heq, hm⟩ := Guardrails.applyPattern_clean st p hth
    rw [heq] at hfold hall
    constructor
    · show rest.foldl Guardrails.applyPattern (Guardrails.applyPattern st p) = st
      rw [heq]
      exact hfold
    · simp [List.all_cons, hm, hall]

set_option maxRecDepth 100000 in
/-- Claim C7 (counterexample): sanitizing "pwd pwd: 123456" (base family,
strict off) yields "pwd [REDACTED_PASSWORD]": the single left-to-right
replacement pass replaces only the second `pwd: 123456` match, and the
marker text then completes a fresh match of the password pattern after the
surviving first "pwd " — so a pattern of the active family still matches the
returned string. -/
theorem c7_counterexample :
    (Guardrails.sanitizeContent "pwd pwd: 123456".toList false).sanitized
      = "pwd [REDACTED_PASSWORD]".toList ∧
    Guardrails.hasMatch Guardrails.rePassword
      (Guardrails.sanitizeContent "pwd pwd: 123456".toList false).sanitized = true ∧
    ((Guardrails.activePatterns false).any fun p =>
      Guardrails.hasMatch p.pattern
        (Guardrails.sanitizeContent "pwd pwd: 123456".toList false).sanitized) = true := by
  refine ⟨by decide, by decide, by decide⟩

/-- Claim C7 (amended): the no-match guarantee holds whenever no pattern
fired at all: if `sanitize(x, strict)` reports no threats, then no pattern
of the active family matches the returned string.  When a replacement does
fire, replacement text can splice with adjacent input into a fresh match
(see the counterexample), so the guarantee does not extend to that case. -/
theorem c7_amended_no_match_when_clean (x : String) (strict : Bool)
    (h : (Guardrails.sanitizeContent x.toList strict).threats = []) :
    ((Guardrails.activePatterns strict).all fun p =>
      !Guardrails.hasMatch p.pattern
        (Guardrails.sanitizeContent x.toList strict).sanitized) = true := by
  have hfin : ((Guardrails.activePatterns strict).foldl Guardrails.applyPattern
      { sanitized := Guardrails.normalizeText x.toList, threats := [], modified := false
        severity := Guardrails.Severity.low }).threats = [] := h
  obtain ⟨heq, hall⟩ := Guardrails.foldl_applyPattern_clean (Guardrails.activePatterns strict)
    { sanitized := Guardrails.normalizeText x.toList, threats := [], modified := false
      severity := Guardrails.Severity.low } hfin
  have hsan : (Guardrails.sanitizeContent x.toList strict).sanitized
      = Guardrails.normalizeText x.toList := by
    show (if ((Guardrails.activePatterns strict).foldl Guardrails.applyPattern
        { sanitized := Guardrails.normalizeText x.toList, threats := [], modified := false
          severity := Guardrails.Severity.low }).modified then _ else _) = _
    rw [heq]
    simp
  rw [hsan]
  exact hall

set_option maxRecDepth 100000 in
/-- Claim C7 (witness): the amended statement at the clean input "hello" in
strict mode. -/
theorem c7_witness :
    (Guardrails.sanitizeContent "hello".toList true).threats = [] ∧
    ((Guardrails.activePatterns true).all fun p =>
      !Guardrails.hasMatch p.pattern
        (Guardrails.sanitizeContent "hello".toList true).sanitized) = true :=
  ⟨by decide, c7_amended_no_match_when_clean "hello" true (by decide)⟩

end Redxt
